import Mathlib

/-!
Verification of the EmergencyEye viewer-connection subsystem and its
surrounding UI glue, as a shallow embedding in Lean 4.

Embedded source files:
- `src/components/ExpandedStreamView.tsx` (live-stream viewer component)
- `src/components/PastStreamViewer.tsx` (recorded-stream playback component)
- `src/contexts/AuthContext.tsx` (legacy credential login)

The Viewer Connection Controller itself (the `useViewer` hook imported
from `@/hooks/useViewer`) is not part of the available sources; where a
property is decided by that hook, the controller is modelled from the
specification text and the definition's doc comment says so explicitly.
-/

/-! ### Component-visible connection status (ExpandedStreamView.tsx) -/

/-- Embeds the inline union type of `ExpandedStreamView.tsx` line 18:
`useState<"connecting" | "connected" | "failed">("connecting")`.
The component-visible status has exactly these three variants. -/
inductive UIConnectionStatus
  | connecting
  | connected
  | failed
deriving DecidableEq, Fintype, Repr

/-- Embeds the initial value passed to `useState` on line 18 of
`ExpandedStreamView.tsx`: the component starts in `"connecting"`. -/
def connectionStatusInit : UIConnectionStatus := UIConnectionStatus.connecting

/-- Embeds the `onStreamReady` callback the component hands to `useViewer`
(`ExpandedStreamView.tsx` line 28): it sets the component status to
`"connected"` regardless of the previous value. -/
def onStreamReady (_s : UIConnectionStatus) : UIConnectionStatus :=
  UIConnectionStatus.connected

/-- Embeds the `onStreamEnded` callback the component hands to `useViewer`
(`ExpandedStreamView.tsx` line 29): it sets the component status to
`"failed"` regardless of the previous value. -/
def onStreamEnded (_s : UIConnectionStatus) : UIConnectionStatus :=
  UIConnectionStatus.failed

/-! ### Component lifecycle effects (ExpandedStreamView.tsx lines 32-46) -/

/-- Calls the component issues to the `useViewer` controller. -/
inductive ViewerCall
  | connect
  | disconnect
deriving DecidableEq, Repr

/-- JavaScript truthiness of a string, as used by `if (stream.id)` on line 33
of `ExpandedStreamView.tsx`: a string is truthy exactly when non-empty. -/
def jsTruthy (s : String) : Bool := !s.isEmpty

/-- Embeds the body of the first `useEffect` (lines 32-40): if the stream id
is truthy, `connect()` is called. -/
def runMountEffect (id : String) (calls : List ViewerCall) : List ViewerCall :=
  if jsTruthy id then calls ++ [ViewerCall.connect] else calls

/-- Embeds the cleanup function of the first `useEffect` (lines 36-38):
`disconnect()` is called unconditionally. -/
def runCleanupEffect (calls : List ViewerCall) : List ViewerCall :=
  calls ++ [ViewerCall.disconnect]

/-- Observable side effects of the component: the ordered list of calls made
to the controller, and the `srcObject` of the video element. -/
structure ViewerBinding where
  calls : List ViewerCall
  srcObject : Option Nat
deriving DecidableEq, Repr

/-- A freshly rendered component: no controller calls yet, no media bound. -/
def bindingInit : ViewerBinding := { calls := [], srcObject := none }

/-- React lifecycle moments relevant to the two effects of
`ExpandedStreamView` (mount, dependency change of `stream.id`, change of
`remoteStream`, unmount). -/
inductive UILifecycle
  | mount (id : String)
  | changeId (id : String)
  | setRemoteStream (ms : Option Nat)
  | unmount

/-- Embeds the React effect semantics of `ExpandedStreamView.tsx` lines
32-46. On mount the first effect runs; on a `stream.id` change its cleanup
runs and then the effect re-runs; on unmount only the cleanup runs. The
second effect (lines 42-46) assigns `remoteStream` to the video element's
`srcObject` when both the ref and the stream are present; the JSX renders
the video element exactly when `remoteStream` is non-null, so at effect
time the ref is populated precisely in the `some` case. -/
def uiStep (b : ViewerBinding) (e : UILifecycle) : ViewerBinding :=
  match e with
  | UILifecycle.mount id => { b with calls := runMountEffect id b.calls }
  | UILifecycle.changeId id =>
      { b with calls := runMountEffect id (runCleanupEffect b.calls) }
  | UILifecycle.setRemoteStream ms =>
      match ms with
      | some m => { b with srcObject := some m }
      | none => b
  | UILifecycle.unmount => { b with calls := runCleanupEffect b.calls }

/-! ### formatDuration (ExpandedStreamView.tsx 48-52, PastStreamViewer.tsx 17-21) -/

/-- JavaScript `String.prototype.padStart(2, "0")`: prepend zeros until the
length is at least 2; a string already of length 2 or more is unchanged. -/
def padStart2 (s : String) : String :=
  if 2 ≤ s.length then s else String.mk (List.replicate (2 - s.length) '0') ++ s

/-- JavaScript `Math.floor` restricted to a non-negative integer argument,
where it is the identity. -/
def jsFloor (n : Nat) : Nat := n

namespace ExpandedStreamView

/-- Embeds `formatDuration` of `ExpandedStreamView.tsx` lines 48-52:
`mins = Math.floor(seconds / 60)` (natural-number division is the floored
quotient), `secs = seconds % 60`, each padded with `padStart(2, "0")` and
joined by a colon. -/
def formatDuration (seconds : Nat) : String :=
  padStart2 (toString (seconds / 60)) ++ ":" ++ padStart2 (toString (seconds % 60))

end ExpandedStreamView

namespace PastStreamViewer

/-- Embeds `formatDuration` of `PastStreamViewer.tsx` lines 17-21: identical
to the `ExpandedStreamView` version except that `secs` is additionally
passed through `Math.floor`. -/
def formatDuration (seconds : Nat) : String :=
  padStart2 (toString (jsFloor (seconds / 60))) ++ ":" ++
    padStart2 (toString (jsFloor (seconds % 60)))

end PastStreamViewer

/-- The specification-side description of the duration format: floor of
seconds over 60 and seconds modulo 60, each zero-padded to two digits and
joined by a colon. Stated independently of the two source functions so the
refinement claim compares code against spec. -/
def formatDurationSpec (seconds : Nat) : String :=
  padStart2 (toString (seconds / 60)) ++ ":" ++ padStart2 (toString (seconds % 60))

/-! ### Legacy login (AuthContext.tsx) -/

/-- Shape of the hardcoded credential record of `AuthContext.tsx`. -/
structure Credentials where
  email : String
  password : String

/-- Embeds `POLICE_CREDENTIALS` of `AuthContext.tsx` lines 24-27. -/
def POLICE_CREDENTIALS : Credentials :=
  { email := "officer@police.gov", password := "SafeStream2024!" }

/-- Observable authentication state: the `isAuthenticated` React state and
the browser `localStorage` contents (a partial map from keys to values). -/
structure AuthState where
  isAuthenticated : Bool
  storage : String → Option String

/-- Authentication state before any interaction: not authenticated, empty
storage. -/
def authInit : AuthState := { isAuthenticated := false, storage := fun _ => none }

/-- Embeds `localStorage.setItem`: overwrite the value stored at a key. -/
def setItem (st : String → Option String) (key value : String) :
    String → Option String :=
  fun k => if k = key then some value else st k

/-- Embeds the legacy `login` of `AuthContext.tsx` lines 125-132: when the
email and password both match `POLICE_CREDENTIALS`, set `isAuthenticated`,
store `policeAuth = "true"` and return `true`; otherwise return `false`
with no state change. -/
def login (email password : String) (s : AuthState) : Bool × AuthState :=
  if email = POLICE_CREDENTIALS.email ∧ password = POLICE_CREDENTIALS.password then
    (true, { isAuthenticated := true
             storage := setItem s.storage "policeAuth" "true" })
  else
    (false, s)

/-! ### Viewer Connection Controller, modelled from the specification -/

/-- Modelled from the spec: the five-variant `ConnectionStatus` enumeration
of the Viewer Connection Controller (spec section 3). The controller itself
is the `useViewer` hook imported from `@/hooks/useViewer`, whose source is
not available in the repository snapshot. -/
inductive ConnectionStatus
  | Idle
  | Connecting
  | Connected
  | Failed
  | Ended
deriving DecidableEq, Repr

/-- Modelled from the spec: the observable state of the Viewer Connection
Controller (`useViewer`, source not available): status, remote media
handle, last error, and the count of live peer sessions and signaling
channels (spec sections 3, 4.3). -/
structure ControllerState where
  status : ConnectionStatus
  remoteMedia : Option Nat
  lastError : Option String
  liveSessions : Nat
  liveChannels : Nat
deriving DecidableEq, Repr

/-- Modelled from the spec: a fresh controller is Idle with no media, no
error, and no live resources. -/
def initController : ControllerState :=
  { status := ConnectionStatus.Idle
    remoteMedia := none
    lastError := none
    liveSessions := 0
    liveChannels := 0 }

/-- Modelled from the spec: the Any-state-to-Idle teardown of `disconnect()`
(spec section 4.3): destroys the peer session and the signaling channel and
discards the remote media handle; `lastError` is not touched. -/
def teardown (s : ControllerState) : ControllerState :=
  { status := ConnectionStatus.Idle
    remoteMedia := none
    lastError := s.lastError
    liveSessions := 0
    liveChannels := 0 }

/-- Modelled from the spec: starting a fresh connection attempt (spec
section 4.3, Idle to Connecting): opens one signaling channel and creates
one peer session. -/
def startAttempt (s : ControllerState) : ControllerState :=
  { s with
      status := ConnectionStatus.Connecting
      liveSessions := 1
      liveChannels := 1 }

/-- Modelled from the spec: `connect()` first fully executes the
Idle-transition teardown, then starts the new attempt (spec section 4.3
invariant). -/
def connectStep (s : ControllerState) : ControllerState :=
  startAttempt (teardown s)

/-- Modelled from the spec: a failure surfaced while Connecting or
Connected moves the controller to Failed, records a human-readable
`lastError`, destroys the session and channel and invalidates the media
handle; after teardown or in a terminal state the callback is a no-op
(spec sections 4.3, 5, 7). -/
def failWith (msg : String) (s : ControllerState) : ControllerState :=
  if s.status = ConnectionStatus.Connecting ∨ s.status = ConnectionStatus.Connected then
    { status := ConnectionStatus.Failed
      remoteMedia := none
      lastError := some msg
      liveSessions := 0
      liveChannels := 0 }
  else s

/-- Modelled from the spec: the asynchronous events the controller reacts
to — the two public calls, track arrival, the three failure signals, and
the StreamEnded signaling message (spec sections 4.3, 7). -/
inductive CEvent
  | connectCall
  | disconnectCall
  | trackArrived (media : Nat)
  | channelUnavailable
  | negotiationError
  | transportClosed
  | streamEnded
deriving DecidableEq, Repr

/-- Modelled from the spec: the controller's single-threaded transition
function (spec sections 4.3, 5, 7). Track arrival fires the Connecting to
Connected transition once, publishing the media handle and clearing
`lastError`; any later track callback is a no-op. StreamEnded from
Connecting or Connected is the normal terminal transition to Ended; in any
other state the first signal has already won and the message is ignored. -/
def ctrlStep (s : ControllerState) (e : CEvent) : ControllerState :=
  match e with
  | CEvent.connectCall => connectStep s
  | CEvent.disconnectCall => teardown s
  | CEvent.trackArrived m =>
      if s.status = ConnectionStatus.Connecting then
        { s with
            status := ConnectionStatus.Connected
            remoteMedia := some m
            lastError := none }
      else s
  | CEvent.channelUnavailable => failWith "ChannelUnavailable" s
  | CEvent.negotiationError => failWith "NegotiationError" s
  | CEvent.transportClosed => failWith "TransportClosed" s
  | CEvent.streamEnded =>
      if s.status = ConnectionStatus.Connecting ∨ s.status = ConnectionStatus.Connected then
        { status := ConnectionStatus.Ended
          remoteMedia := none
          lastError := s.lastError
          liveSessions := 0
          liveChannels := 0 }
      else s

/-- Modelled from the spec: run the controller from its fresh state over a
sequence of events. -/
def runEvents (evs : List CEvent) : ControllerState :=
  evs.foldl ctrlStep initController

/-- Modelled from the spec: the sequence of statuses observed along an
event sequence, starting state included. -/
def statusTrace : ControllerState → List CEvent → List ConnectionStatus
  | s, [] => [s.status]
  | s, e :: evs => s.status :: statusTrace (ctrlStep s e) evs

/-- Modelled from the spec: the synchronous boundary of `connect()` — it
always returns normally (an `Except.ok` result), never a synchronous
exception; failures surface later through the status and `lastError`
observables (spec section 4.3 error surface). -/
def connectApi (s : ControllerState) : Except String ControllerState :=
  Except.ok (connectStep s)

/-! ### Reachability invariant of the modelled controller -/

/-- Invariant of reachable controller states: at most one live session and
channel, and an Idle controller holds no media and no live resources. -/
def ControllerInv (s : ControllerState) : Prop :=
  s.liveSessions ≤ 1 ∧ s.liveChannels ≤ 1 ∧
    (s.status = ConnectionStatus.Idle →
      s.remoteMedia = none ∧ s.liveSessions = 0 ∧ s.liveChannels = 0)

lemma controllerInv_init : ControllerInv initController := by
  refine ⟨Nat.le_refl 0 |>.trans (Nat.zero_le 1), Nat.zero_le 1, ?_⟩
  intro _
  exact ⟨rfl, rfl, rfl⟩

lemma controllerInv_step (s : ControllerState) (e : CEvent)
    (h : ControllerInv s) : ControllerInv (ctrlStep s e) := by
  obtain ⟨h1, h2, h3⟩ := h
  cases e with
  | connectCall =>
      refine ⟨Nat.le_refl 1, Nat.le_refl 1, ?_⟩
      intro hc
      exact ConnectionStatus.noConfusion hc
  | disconnectCall =>
      exact ⟨Nat.zero_le 1, Nat.zero_le 1, fun _ => ⟨rfl, rfl, rfl⟩⟩
  | trackArrived m =>
      by_cases hs : s.status = ConnectionStatus.Connecting
      · simp only [ctrlStep, if_pos hs]
        exact ⟨h1, h2, fun hc => absurd hc (by simp)⟩
      · simp only [ctrlStep, if_neg hs]
        exact ⟨h1, h2, h3⟩
  | channelUnavailable =>
      by_cases hs : s.status = ConnectionStatus.Connecting ∨
          s.status = ConnectionStatus.Connected
      · simp only [ctrlStep, failWith, if_pos hs]
        exact ⟨Nat.zero_le 1, Nat.zero_le 1, fun hc => absurd hc (by simp)⟩
      · simp only [ctrlStep, failWith, if_neg hs]
        exact ⟨h1, h2, h3⟩
  | negotiationError =>
      by_cases hs : s.status = ConnectionStatus.Connecting ∨
          s.status = ConnectionStatus.Connected
      · simp only [ctrlStep, failWith, if_pos hs]
        exact ⟨Nat.zero_le 1, Nat.zero_le 1, fun hc => absurd hc (by simp)⟩
      · simp only [ctrlStep, failWith, if_neg hs]
        exact ⟨h1, h2, h3⟩
  | transportClosed =>
      by_cases hs : s.status = ConnectionStatus.Connecting ∨
          s.status = ConnectionStatus.Connected
      · simp only [ctrlStep, failWith, if_pos hs]
        exact ⟨Nat.zero_le 1, Nat.zero_le 1, fun hc => absurd hc (by simp)⟩
      · simp only [ctrlStep, failWith, if_neg hs]
        exact ⟨h1, h2, h3⟩
  | streamEnded =>
      by_cases hs : s.status = ConnectionStatus.Connecting ∨
          s.status = ConnectionStatus.Connected
      · simp only [ctrlStep, if_pos hs]
        exact ⟨Nat.zero_le 1, Nat.zero_le 1, fun hc => absurd hc (by simp)⟩
      · simp only [ctrlStep, if_neg hs]
        exact ⟨h1, h2, h3⟩

lemma controllerInv_foldl (evs : List CEvent) :
    ∀ s, ControllerInv s → ControllerInv (evs.foldl ctrlStep s) := by
  induction evs with
  | nil => intro s h; exact h
  | cons e evs ih => intro s h; exact ih (ctrlStep s e) (controllerInv_step s e h)

lemma controllerInv_run (evs : List CEvent) : ControllerInv (runEvents evs) :=
  controllerInv_foldl evs initController controllerInv_init

lemma teardown_eq_self (s : ControllerState)
    (hs : s.status = ConnectionStatus.Idle) (hm : s.remoteMedia = none)
    (h1 : s.liveSessions = 0) (h2 : s.liveChannels = 0) : teardown s = s := by
  cases s
  simp_all [teardown]

/-! ### Claims -/

/-- Claim C1 counterexample: in the code, receipt of the stream-ended
signal while the component status is connected (and likewise connecting)
sets the component-visible status to the `failed` value itself — not to a
terminal state distinct from Failed, which falsifies the claim at these
concrete inputs. -/
theorem onStreamEnded_not_distinct_from_failed :
    onStreamEnded UIConnectionStatus.connected = UIConnectionStatus.failed ∧
    onStreamEnded UIConnectionStatus.connecting = UIConnectionStatus.failed :=
  ⟨rfl, rfl⟩

/-- Claim C1 (amended): receipt of a stream-ended signal, from any
component-visible status, sets the status to `failed` — the same value used
for failures; the component's status enumeration has no distinct Ended
state, and the stream-ended handler never yields `connected`. -/
theorem onStreamEnded_maps_to_failed :
    (∀ s : UIConnectionStatus, onStreamEnded s = UIConnectionStatus.failed) ∧
    UIConnectionStatus.failed ≠ UIConnectionStatus.connected :=
  ⟨fun _ => rfl, fun h => UIConnectionStatus.noConfusion h⟩

/-- Claim C2 counterexample: the component-visible status type of
`ExpandedStreamView.tsx` line 18 has exactly three variants, not five, and
a fresh component starts in `connecting`, not in an Idle state — which
falsifies the claim on the concrete initial state. -/
theorem connectionStatus_three_variants :
    Fintype.card UIConnectionStatus = 3 ∧
    connectionStatusInit = UIConnectionStatus.connecting := by
  refine ⟨?_, rfl⟩
  decide

/-- Claim C2 (amended): at every instant the component-visible connection
status is exactly one value of the three-variant enumeration containing
connecting, connected and failed, and a fresh component starts in
`connecting` before any connect() call. -/
theorem connectionStatus_enum_and_init :
    (∀ s : UIConnectionStatus,
      s = UIConnectionStatus.connecting ∨ s = UIConnectionStatus.connected ∨
        s = UIConnectionStatus.failed) ∧
    Fintype.card UIConnectionStatus = 3 ∧
    connectionStatusInit = UIConnectionStatus.connecting := by
  refine ⟨fun s => ?_, by decide, rfl⟩
  cases s
  · exact Or.inl rfl
  · exact Or.inr (Or.inl rfl)
  · exact Or.inr (Or.inr rfl)

/-- Claim C3: over every event sequence (including back-to-back connect
calls) the controller holds at most one live peer session and at most one
live signaling channel, and a connect() from any state first fully
executes the teardown to Idle (zero live resources) before starting the
new attempt. -/
theorem controller_single_resource_invariant :
    (∀ evs : List CEvent,
      (runEvents evs).liveSessions ≤ 1 ∧ (runEvents evs).liveChannels ≤ 1) ∧
    (∀ s : ControllerState,
      ctrlStep s CEvent.connectCall = startAttempt (teardown s)) ∧
    (∀ s : ControllerState,
      (teardown s).status = ConnectionStatus.Idle ∧
        (teardown s).liveSessions = 0 ∧ (teardown s).liveChannels = 0) :=
  ⟨fun evs => ⟨(controllerInv_run evs).1, (controllerInv_run evs).2.1⟩,
   fun _ => rfl, fun _ => ⟨rfl, rfl, rfl⟩⟩

/-- Claim C4: disconnect() is idempotent — a second disconnect() yields a
state identical to the first — and from any reachable Idle state
disconnect() is a no-op, so the teardown's effects happen at most once. -/
theorem disconnect_idempotent :
    (∀ s : ControllerState,
      ctrlStep (ctrlStep s CEvent.disconnectCall) CEvent.disconnectCall =
        ctrlStep s CEvent.disconnectCall) ∧
    (∀ evs : List CEvent, (runEvents evs).status = ConnectionStatus.Idle →
      ctrlStep (runEvents evs) CEvent.disconnectCall = runEvents evs) := by
  constructor
  · intro s
    rfl
  · intro evs h
    obtain ⟨_, _, h3⟩ := controllerInv_run evs
    obtain ⟨hm, hs0, hc0⟩ := h3 h
    exact teardown_eq_self (runEvents evs) h hm hs0 hc0

/-- Claim C4 witness: the idempotence and Idle no-op instantiated at the
fresh controller. -/
theorem disconnect_idempotent_witness :
    ctrlStep (ctrlStep initController CEvent.disconnectCall) CEvent.disconnectCall =
      ctrlStep initController CEvent.disconnectCall ∧
    ctrlStep (runEvents []) CEvent.disconnectCall = runEvents [] :=
  ⟨disconnect_idempotent.1 initController, disconnect_idempotent.2 [] rfl⟩

lemma failWith_active (msg : String) (s : ControllerState)
    (hs : s.status = ConnectionStatus.Connecting ∨
      s.status = ConnectionStatus.Connected) :
    failWith msg s =
      { status := ConnectionStatus.Failed
        remoteMedia := none
        lastError := some msg
        liveSessions := 0
        liveChannels := 0 } := by
  unfold failWith
  rw [if_pos hs]

/-- Claim C5: connect() never throws synchronously — its boundary result is
always a normal return, never an exception — and every failure signal
received while Connecting or Connected is reported only through the status
and lastError observables. -/
theorem connect_never_throws :
    (∀ s : ControllerState, connectApi s = Except.ok (connectStep s)) ∧
    (∀ (s : ControllerState) (msg : String), connectApi s ≠ Except.error msg) ∧
    (∀ s : ControllerState,
      s.status = ConnectionStatus.Connecting ∨
        s.status = ConnectionStatus.Connected →
      ((ctrlStep s CEvent.channelUnavailable).status = ConnectionStatus.Failed ∧
        (ctrlStep s CEvent.channelUnavailable).lastError ≠ none) ∧
      ((ctrlStep s CEvent.negotiationError).status = ConnectionStatus.Failed ∧
        (ctrlStep s CEvent.negotiationError).lastError ≠ none) ∧
      ((ctrlStep s CEvent.transportClosed).status = ConnectionStatus.Failed ∧
        (ctrlStep s CEvent.transportClosed).lastError ≠ none)) := by
  refine ⟨fun s => rfl, fun s msg h => Except.noConfusion h, fun s hs => ?_⟩
  have hcu := failWith_active "ChannelUnavailable" s hs
  have hne := failWith_active "NegotiationError" s hs
  have htc := failWith_active "TransportClosed" s hs
  refine ⟨⟨?_, ?_⟩, ⟨?_, ?_⟩, ⟨?_, ?_⟩⟩ <;>
    simp [ctrlStep, hcu, hne, htc]

/-- Claim C5 witness: the failure-reporting part instantiated at the state
reached by a single connect() call. -/
theorem connect_never_throws_witness :
    ((ctrlStep (runEvents [CEvent.connectCall]) CEvent.channelUnavailable).status =
        ConnectionStatus.Failed ∧
      (ctrlStep (runEvents [CEvent.connectCall]) CEvent.channelUnavailable).lastError ≠
        none) ∧
    ((ctrlStep (runEvents [CEvent.connectCall]) CEvent.negotiationError).status =
        ConnectionStatus.Failed ∧
      (ctrlStep (runEvents [CEvent.connectCall]) CEvent.negotiationError).lastError ≠
        none) ∧
    ((ctrlStep (runEvents [CEvent.connectCall]) CEvent.transportClosed).status =
        ConnectionStatus.Failed ∧
      (ctrlStep (runEvents [CEvent.connectCall]) CEvent.transportClosed).lastError ≠
        none) :=
  connect_never_throws.2.2 (runEvents [CEvent.connectCall]) (Or.inl rfl)

/-- Claim C6: when the component is mounted with a non-empty stream id the
effect calls connect(); the effect cleanup calls disconnect() on unmount
and on a stream-id change (before any new connect); and whenever
remoteStream becomes non-null it is bound to the video element's
srcObject. -/
theorem expandedStreamView_lifecycle :
    (∀ (id : String) (b : ViewerBinding), id ≠ "" →
      (uiStep b (UILifecycle.mount id)).calls = b.calls ++ [ViewerCall.connect]) ∧
    (∀ b : ViewerBinding,
      (uiStep b UILifecycle.unmount).calls = b.calls ++ [ViewerCall.disconnect]) ∧
    (∀ (id : String) (b : ViewerBinding),
      (uiStep b (UILifecycle.changeId id)).calls =
        runMountEffect id (b.calls ++ [ViewerCall.disconnect])) ∧
    (∀ (b : ViewerBinding) (m : Nat),
      (uiStep b (UILifecycle.setRemoteStream (some m))).srcObject = some m) := by
  refine ⟨?_, fun b => rfl, fun id b => rfl, fun b m => rfl⟩
  intro id b hid
  have hemp : id.isEmpty = false := by
    cases hv : id.isEmpty
    · rfl
    · exact absurd ((String.isEmpty_iff id).mp hv) hid
  show runMountEffect id b.calls = b.calls ++ [ViewerCall.connect]
  unfold runMountEffect jsTruthy
  rw [hemp]
  rfl

/-- Claim C6 witness: mounting a fresh component with the stream id
abc123 issues exactly one connect() call. -/
theorem expandedStreamView_lifecycle_witness :
    (uiStep bindingInit (UILifecycle.mount "abc123")).calls =
      bindingInit.calls ++ [ViewerCall.connect] :=
  expandedStreamView_lifecycle.1 "abc123" bindingInit (by decide)

/-- Claim C7: while Connecting, a track arrival transitions the controller
to Connected, publishing the remote media handle and clearing lastError;
once Connected, a second track-arrival callback is a no-op, so the
transition fires exactly once. -/
theorem track_arrival_exactly_once :
    (∀ (s : ControllerState) (m : Nat), s.status = ConnectionStatus.Connecting →
      ctrlStep s (CEvent.trackArrived m) =
        { s with
            status := ConnectionStatus.Connected
            remoteMedia := some m
            lastError := none }) ∧
    (∀ (s : ControllerState) (m : Nat), s.status = ConnectionStatus.Connected →
      ctrlStep s (CEvent.trackArrived m) = s) := by
  constructor
  · intro s m h
    simp only [ctrlStep]
    rw [if_pos h]
  · intro s m h
    have hn : ¬ s.status = ConnectionStatus.Connecting := by
      rw [h]
      exact fun hc => ConnectionStatus.noConfusion hc
    simp only [ctrlStep]
    rw [if_neg hn]

/-- Claim C7 witness: after one connect() the first track arrival yields
Connected with the media published, and a second track arrival leaves the
state unchanged. -/
theorem track_arrival_exactly_once_witness :
    ctrlStep (runEvents [CEvent.connectCall]) (CEvent.trackArrived 7) =
      { runEvents [CEvent.connectCall] with
          status := ConnectionStatus.Connected
          remoteMedia := some 7
          lastError := none } ∧
    ctrlStep (runEvents [CEvent.connectCall, CEvent.trackArrived 7])
        (CEvent.trackArrived 9) =
      runEvents [CEvent.connectCall, CEvent.trackArrived 7] :=
  ⟨track_arrival_exactly_once.1 (runEvents [CEvent.connectCall]) 7 rfl,
   track_arrival_exactly_once.2
     (runEvents [CEvent.connectCall, CEvent.trackArrived 7]) 9 rfl⟩

/-- Claim C8: a connect() whose channel open fails with ChannelUnavailable
produces the status sequence Idle, Connecting, Failed; remoteMedia stays
none throughout; lastError is set; and no further event other than an
explicit connect() call ever brings the controller back to Connecting or
Connected (no retry). -/
theorem channel_unavailable_failure_path :
    statusTrace initController [CEvent.connectCall, CEvent.channelUnavailable] =
      [ConnectionStatus.Idle, ConnectionStatus.Connecting, ConnectionStatus.Failed] ∧
    initController.remoteMedia = none ∧
    (runEvents [CEvent.connectCall]).remoteMedia = none ∧
    (runEvents [CEvent.connectCall, CEvent.channelUnavailable]).remoteMedia = none ∧
    (runEvents [CEvent.connectCall, CEvent.channelUnavailable]).lastError =
      some "ChannelUnavailable" ∧
    (∀ e : CEvent, e ≠ CEvent.connectCall →
      (ctrlStep (runEvents [CEvent.connectCall, CEvent.channelUnavailable]) e).status ≠
        ConnectionStatus.Connecting ∧
      (ctrlStep (runEvents [CEvent.connectCall, CEvent.channelUnavailable]) e).status ≠
        ConnectionStatus.Connected) := by
  refine ⟨rfl, rfl, rfl, rfl, rfl, ?_⟩
  intro e he
  cases e with
  | connectCall => exact absurd rfl he
  | disconnectCall =>
      exact ⟨fun h => ConnectionStatus.noConfusion h,
        fun h => ConnectionStatus.noConfusion h⟩
  | trackArrived m =>
      exact ⟨fun h => ConnectionStatus.noConfusion h,
        fun h => ConnectionStatus.noConfusion h⟩
  | channelUnavailable =>
      exact ⟨fun h => ConnectionStatus.noConfusion h,
        fun h => ConnectionStatus.noConfusion h⟩
  | negotiationError =>
      exact ⟨fun h => ConnectionStatus.noConfusion h,
        fun h => ConnectionStatus.noConfusion h⟩
  | transportClosed =>
      exact ⟨fun h => ConnectionStatus.noConfusion h,
        fun h => ConnectionStatus.noConfusion h⟩
  | streamEnded =>
      exact ⟨fun h => ConnectionStatus.noConfusion h,
        fun h => ConnectionStatus.noConfusion h⟩

/-- Claim C8 witness: the no-retry part instantiated at the streamEnded
event. -/
theorem channel_unavailable_failure_path_witness :
    (ctrlStep (runEvents [CEvent.connectCall, CEvent.channelUnavailable])
        CEvent.streamEnded).status ≠ ConnectionStatus.Connecting ∧
    (ctrlStep (runEvents [CEvent.connectCall, CEvent.channelUnavailable])
        CEvent.streamEnded).status ≠ ConnectionStatus.Connected :=
  channel_unavailable_failure_path.2.2.2.2.2 CEvent.streamEnded
    (fun h => CEvent.noConfusion h)

/-- Claim C9: for every non-negative integer number of seconds the two
formatDuration functions agree, and both return the floored minute count
and the residual seconds, each zero-padded to two digits, joined by a
colon. -/
theorem formatDuration_refinement :
    ∀ seconds : Nat,
      ExpandedStreamView.formatDuration seconds =
        PastStreamViewer.formatDuration seconds ∧
      ExpandedStreamView.formatDuration seconds = formatDurationSpec seconds :=
  fun _ => ⟨rfl, rfl⟩

/-- Claim C10: the legacy login returns true exactly on the hardcoded
credential pair; on success it sets isAuthenticated and stores
policeAuth = true; on failure it leaves the authentication state and the
storage unchanged. -/
theorem login_correct :
    ∀ (email password : String) (s : AuthState),
      ((login email password s).1 = true ↔
        email = POLICE_CREDENTIALS.email ∧ password = POLICE_CREDENTIALS.password) ∧
      ((login email password s).1 = true →
        (login email password s).2.isAuthenticated = true ∧
        (login email password s).2.storage "policeAuth" = some "true") ∧
      ((login email password s).1 = false → (login email password s).2 = s) := by
  intro email password s
  by_cases h : email = POLICE_CREDENTIALS.email ∧ password = POLICE_CREDENTIALS.password
  · have hl : login email password s =
        (true, { isAuthenticated := true
                 storage := setItem s.storage "policeAuth" "true" }) := by
      unfold login
      rw [if_pos h]
    rw [hl]
    refine ⟨⟨fun _ => h, fun _ => rfl⟩, fun _ => ⟨rfl, ?_⟩,
      fun hf => Bool.noConfusion hf⟩
    show setItem s.storage "policeAuth" "true" "policeAuth" = some "true"
    unfold setItem
    rw [if_pos rfl]
  · have hl : login email password s = (false, s) := by
      unfold login
      rw [if_neg h]
    rw [hl]
    exact ⟨⟨fun ht => Bool.noConfusion ht, fun hc => absurd hc h⟩,
      fun ht => Bool.noConfusion ht, fun _ => rfl⟩

/-- Claim C10 witness: the hardcoded pair logs in successfully and a wrong
pair leaves the fresh state unchanged. -/
theorem login_correct_witness :
    (login "officer@police.gov" "SafeStream2024!" authInit).1 = true ∧
    (login "officer" "wrong" authInit).2 = authInit :=
  ⟨(login_correct "officer@police.gov" "SafeStream2024!" authInit).1.mpr ⟨rfl, rfl⟩,
   (login_correct "officer" "wrong" authInit).2.2 (by decide)⟩
